import Mathlib

/-!
Verification of the simulation core of a minimal two-player 2D fighting game
(`fighting_game.py`).  The per-fighter state machine, the melee collision
resolver and the round/match controller are shallowly embedded below:
positions and velocities are exact rationals, health is an integer, timers
are naturals, and one `tick` corresponds to one iteration of the main loop
(event handling, wall-clock gated timer, both fighter updates, collision
resolution, knockout check).  Rendering, particles and input polling are
presentation-layer and are not modelled, except that the accepted-hit event
(the site where the code spawns a hit particle) is mirrored by the counters
`hits1`/`hits2`.
-/

namespace Fighting

/-- Stage width in pixels (`WIDTH`). -/
def WIDTH : ℚ := 960

/-- Stage height in pixels (`HEIGHT`). -/
def HEIGHT : ℚ := 540

/-- y coordinate of the ground line (`GROUND_Y = HEIGHT - 80`). -/
def GROUND_Y : ℚ := HEIGHT - 80

/-- Per-frame gravity increment (`GRAVITY = 0.9`). -/
def GRAVITY : ℚ := 9 / 10

/-- Fighter bounding-box width (`PLAYER_WIDTH = 48`). -/
def PLAYER_WIDTH : ℚ := 48

/-- Fighter bounding-box height (`PLAYER_HEIGHT = 72`). -/
def PLAYER_HEIGHT : ℚ := 72

/-- Horizontal walk speed (`WALK_SPEED = 5`). -/
def WALK_SPEED : ℚ := 5

/-- Vertical launch velocity of a jump (`JUMP_VEL = -16`). -/
def JUMP_VEL : ℚ := -16

/-- Width of the melee hitbox (`ATTACK_RANGE = 60`). -/
def ATTACK_RANGE : ℚ := 60

/-- Frames an attack stays active (`ATTACK_DURATION = 14`). -/
def ATTACK_DURATION : ℕ := 14

/-- Frames of hit stun after being hit (`HIT_STUN = 20`). -/
def HIT_STUN : ℕ := 20

/-- Frames of invulnerability after being hit (`INVULN_AFTER_HIT = 30`). -/
def INVULN_AFTER_HIT : ℕ := 30

/-- Horizontal knockback speed (`KNOCKBACK = 10`). -/
def KNOCKBACK : ℚ := 10

/-- Maximum (and initial) health (`MAX_HEALTH = 100`). -/
def MAX_HEALTH : ℤ := 100

/-- Seconds per round (`ROUND_TIME = 60`). -/
def ROUND_TIME : ℤ := 60

/-- Rounds needed to win the match (`ROUNDS_TO_WIN = 2`). -/
def ROUNDS_TO_WIN : ℕ := 2

/-- `clamp(x, a, b) = max(a, min(b, x))`. -/
def clamp (x a b : ℚ) : ℚ := max a (min b x)

/-- Python `int()` on a rational: truncation toward zero
(`pygame.Rect` coordinates are built with `int(...)`). -/
def pyInt (q : ℚ) : ℤ := q.num.tdiv q.den

/-- An integer rectangle, as `pygame.Rect(x, y, w, h)`. -/
structure Rect where
  x : ℤ
  y : ℤ
  w : ℤ
  h : ℤ
deriving DecidableEq

/-- `pygame.Rect.colliderect`: true when both rectangles are nonempty and
they overlap (strict inequalities on all four sides). -/
def colliderect (a b : Rect) : Bool :=
  decide (a.w ≠ 0) && decide (a.h ≠ 0) && decide (b.w ≠ 0) && decide (b.h ≠ 0) &&
  decide (a.x < b.x + b.w) && decide (a.y < b.y + b.h) &&
  decide (a.x + a.w > b.x) && decide (a.y + a.h > b.y)

/-- One fighter (`class Player`): all numeric fields of the source object.
Countdown timers are naturals (the source only decrements them while
positive), health is an unclamped integer, positions/velocities are exact
rationals, `facing` is `1` (right) or `-1` (left) as in the source.
The `color`/`controls` presentation fields are not modelled. -/
structure Player where
  x : ℚ
  y : ℚ
  vx : ℚ
  vy : ℚ
  facing : ℤ
  on_ground : Bool
  attack_timer : ℕ
  is_attacking : Bool
  health : ℤ
  hit_stun : ℕ
  invuln : ℕ
  rounds : ℕ
  combo : ℕ
  combo_timer : ℕ
deriving DecidableEq

/-- Bounding rectangle of a fighter (`Player.rect`):
`pygame.Rect(int(x), int(y), 48, 72)`. -/
def Player.rect (self : Player) : Rect :=
  ⟨pyInt self.x, pyInt self.y, 48, 72⟩

/-- Horizontal center (`Player.center_x`). -/
def Player.center_x (self : Player) : ℚ := self.x + PLAYER_WIDTH / 2

/-- Melee hitbox (`Player.melee_hitbox`): empty when not attacking,
otherwise a rectangle of width `ATTACK_RANGE` and 60% of the fighter's
height, vertically centered, adjacent to the leading edge. -/
def Player.melee_hitbox (self : Player) : Rect :=
  if self.is_attacking = false then ⟨0, 0, 0, 0⟩
  else
    let w : ℚ := ATTACK_RANGE
    let h : ℚ := PLAYER_HEIGHT * (6 / 10)
    let hx : ℚ := if self.facing = 1 then self.x + PLAYER_WIDTH else self.x - w
    let hy : ℚ := self.y + (PLAYER_HEIGHT - h) / 2
    ⟨pyInt hx, pyInt hy, pyInt w, pyInt h⟩

/-- `Player.apply_gravity`: add gravity to `vy`, integrate `y`, snap to the
ground line and set the grounded flag. -/
def Player.apply_gravity (self : Player) : Player :=
  let vy := self.vy + GRAVITY
  let y := self.y + vy
  if y ≥ GROUND_Y - PLAYER_HEIGHT then
    { self with vy := 0, y := GROUND_Y - PLAYER_HEIGHT, on_ground := true }
  else
    { self with vy := vy, y := y, on_ground := false }

/-- `Player.start_attack`: when not already attacking and not hit-stunned,
set the attack active for `ATTACK_DURATION` frames and add a small forward
hop to `vx`.  The second component is the Python return value of the
method: the source method has no `return` statement, so it returns `None`
(`none`) on every path. -/
def Player.start_attack (self : Player) : Player × Option Bool :=
  (if self.is_attacking = false ∧ self.hit_stun = 0 then
    { self with is_attacking := true, attack_timer := ATTACK_DURATION,
                vx := self.vx + 2 * (self.facing : ℚ) }
  else self, none)

/-- `Player.receive_hit(damage, direction)`: rejected (returns `False`,
no state change) while invulnerable; otherwise subtract damage from health
(unclamped), start the hit-stun and invulnerability windows, set knockback
velocity and bump the combo.  First component is the Python return value. -/
def Player.receive_hit (self : Player) (damage : ℤ) (direction : ℤ) : Bool × Player :=
  if self.invuln > 0 then (false, self)
  else
    (true, { self with
      health := self.health - damage,
      hit_stun := HIT_STUN,
      invuln := INVULN_AFTER_HIT,
      vx := (direction : ℚ) * KNOCKBACK,
      vy := -6,
      combo := self.combo + 1,
      combo_timer := 60 })

/-- Per-player input sample for one frame: which of the four logical
buttons are held. -/
structure PKeys where
  left : Bool
  right : Bool
  jump : Bool
  attack : Bool
deriving DecidableEq

/-- Timer block of `Player.update`: decrement the attack, hit-stun,
invulnerability and combo countdowns; expiry of the attack timer clears
`is_attacking`, expiry of the combo timer resets `combo`. -/
def Player.step_timers (self : Player) : Player :=
  let s1 :=
    if self.attack_timer > 0 then
      { self with attack_timer := self.attack_timer - 1,
                  is_attacking := if self.attack_timer - 1 = 0 then false
                                  else self.is_attacking }
    else self
  let s2 := if s1.hit_stun > 0 then { s1 with hit_stun := s1.hit_stun - 1 } else s1
  let s3 := if s2.invuln > 0 then { s2 with invuln := s2.invuln - 1 } else s2
  if s3.combo_timer > 0 then
    { s3 with combo_timer := s3.combo_timer - 1,
              combo := if s3.combo_timer - 1 = 0 then 0 else s3.combo }
  else s3

/-- Hit-stunned branch of `Player.update`: input is ignored; gravity, then
horizontal deceleration by 0.9, integration and clamping to stage bounds. -/
def Player.stun_update (self : Player) : Player :=
  let s := self.apply_gravity
  let v := s.vx * (9 / 10)
  { s with vx := v, x := clamp (s.x + v) 0 (WIDTH - PLAYER_WIDTH) }

/-- Directional-input block of `Player.update`: left/right set `vx` and
`facing` (left checked first); with no direction held, friction multiplies
`vx` by 0.8 and snaps it to zero below 0.2. -/
def Player.input_move (self : Player) (keys : PKeys) : Player :=
  if keys.left then { self with vx := -WALK_SPEED, facing := -1 }
  else if keys.right then { self with vx := WALK_SPEED, facing := 1 }
  else
    let v := self.vx * (8 / 10)
    { self with vx := if |v| < 2 / 10 then 0 else v }

/-- Jump block of `Player.update`: launch when the jump key is held and the
fighter is grounded. -/
def Player.do_jump (self : Player) (keys : PKeys) : Player :=
  if keys.jump ∧ self.on_ground then { self with vy := JUMP_VEL, on_ground := false }
  else self

/-- Attack block of `Player.update`: call `start_attack` when the attack
key is held (the `None` return value is discarded, as in the source). -/
def Player.do_attack (self : Player) (keys : PKeys) : Player :=
  if keys.attack then (self.start_attack).1 else self

/-- Horizontal integration block of `Player.update`: `x += vx` then clamp
to stage bounds. -/
def Player.move_x (self : Player) : Player :=
  { self with x := clamp (self.x + self.vx) 0 (WIDTH - PLAYER_WIDTH) }

/-- Final block of `Player.update`: facing auto-orients toward the
opponent's horizontal center (`1` exactly when the opponent's center is
strictly to the right). -/
def Player.face_opponent (self opponent : Player) : Player :=
  { self with facing := if opponent.center_x > self.center_x then 1 else -1 }

/-- Non-stunned branch of `Player.update`, in source order: directional
input, jump, attack, horizontal integration and clamping, gravity, facing
auto-orientation. -/
def Player.free_update (self : Player) (keys : PKeys) (opponent : Player) : Player :=
  ((((self.input_move keys).do_jump keys).do_attack keys).move_x.apply_gravity.face_opponent
    opponent)

/-- `Player.update(keys, opponent)`: timers first; then the early-return
hit-stun branch, or the full input/movement branch. -/
def Player.update (self : Player) (keys : PKeys) (opponent : Player) : Player :=
  let s := self.step_timers
  if s.hit_stun > 0 then s.stun_update else s.free_update keys opponent

/-- Round winner as recorded by the controller
(`"Player 1"` / `"Player 2"` / `"Draw"`). -/
inductive Winner where
  | P1 : Winner
  | P2 : Winner
  | Draw : Winner
deriving DecidableEq

/-- The mutable state of the main loop: both fighters, the round timer and
round lifecycle state.  `hits1`/`hits2` count the accepted hits landed by
player 1 / player 2 (each increment is exactly one execution of the
accepted-hit branch of the resolver, where the source spawns a particle). -/
structure GameState where
  p1 : Player
  p2 : Player
  round_time_left : ℤ
  round_active : Bool
  round_winner : Option Winner
  hits1 : ℕ
  hits2 : ℕ
deriving DecidableEq

/-- External inputs of one frame: both key snapshots, whether a wall-clock
second elapsed since the last timer decrement, and whether SPACE was
pressed (the continue signal). -/
structure Input where
  k1 : PKeys
  k2 : PKeys
  secondElapsed : Bool
  space : Bool
deriving DecidableEq

/-- `round_reset(p1, p2)`: reposition both fighters to the fixed spawn
points (centers at 25% / 75% of stage width), zero velocities, restore
health, clear attack/stun/invulnerability/combo state.  `facing`,
`on_ground` and `rounds` are not touched. -/
def round_reset (p1 p2 : Player) : Player × Player :=
  ({ p1 with
      x := WIDTH * (25 / 100) - PLAYER_WIDTH / 2,
      y := GROUND_Y - PLAYER_HEIGHT,
      vx := 0, vy := 0,
      health := MAX_HEALTH,
      is_attacking := false, attack_timer := 0,
      hit_stun := 0, invuln := 0,
      combo := 0, combo_timer := 0 },
   { p2 with
      x := WIDTH * (75 / 100) - PLAYER_WIDTH / 2,
      y := GROUND_Y - PLAYER_HEIGHT,
      vx := 0, vy := 0,
      health := MAX_HEALTH,
      is_attacking := false, attack_timer := 0,
      hit_stun := 0, invuln := 0,
      combo := 0, combo_timer := 0 })

/-- SPACE handling of the event loop: when the round is over, reset both
fighters and start the next round. -/
def spacePhase (s : GameState) (space : Bool) : GameState :=
  if space ∧ s.round_active = false then
    let q := round_reset s.p1 s.p2
    { s with p1 := q.1, p2 := q.2, round_active := true,
             round_time_left := ROUND_TIME, round_winner := none }
  else s

/-- Wall-clock gated round timer: when a second has elapsed, decrement
`round_time_left`; on reaching zero the round ends and the fighter with
strictly higher health wins (equal health is a draw), the winner's round
count incremented. -/
def timerPhase (s : GameState) (secondElapsed : Bool) : GameState :=
  if secondElapsed then
    let t := s.round_time_left - 1
    if t ≤ 0 then
      if s.p1.health > s.p2.health then
        { s with round_time_left := t, round_active := false,
                 round_winner := some .P1,
                 p1 := { s.p1 with rounds := s.p1.rounds + 1 } }
      else if s.p2.health > s.p1.health then
        { s with round_time_left := t, round_active := false,
                 round_winner := some .P2,
                 p2 := { s.p2 with rounds := s.p2.rounds + 1 } }
      else
        { s with round_time_left := t, round_active := false,
                 round_winner := some .Draw }
    else { s with round_time_left := t }
  else s

/-- Resolver, player 1 attacking player 2: when p1 is attacking and its
melee hitbox overlaps p2's rectangle, apply `receive_hit` with damage
`12 + 2·combo` and p1's facing as knockback direction; on an accepted hit,
cancel p1's attack (clear `is_attacking`, zero the timer) and record the
hit event. -/
def resolve1 (s : GameState) : GameState :=
  if s.p1.is_attacking then
    if colliderect s.p1.melee_hitbox s.p2.rect then
      let r := s.p2.receive_hit (12 + (s.p1.combo : ℤ) * 2) s.p1.facing
      if r.1 then
        { s with p2 := r.2,
                 p1 := { s.p1 with is_attacking := false, attack_timer := 0 },
                 hits1 := s.hits1 + 1 }
      else { s with p2 := r.2 }
    else s
  else s

/-- Resolver, player 2 attacking player 1 (mirror of `resolve1`). -/
def resolve2 (s : GameState) : GameState :=
  if s.p2.is_attacking then
    if colliderect s.p2.melee_hitbox s.p1.rect then
      let r := s.p1.receive_hit (12 + (s.p2.combo : ℤ) * 2) s.p2.facing
      if r.1 then
        { s with p1 := r.2,
                 p2 := { s.p2 with is_attacking := false, attack_timer := 0 },
                 hits2 := s.hits2 + 1 }
      else { s with p1 := r.2 }
    else s
  else s

/-- Knockout check after the resolver: if either health is ≤ 0 the round
ends at once; both ≤ 0 is checked first and is a draw, otherwise the
surviving fighter wins and their round count is incremented. -/
def deathPhase (s : GameState) : GameState :=
  if s.p1.health ≤ 0 ∨ s.p2.health ≤ 0 then
    if s.p1.health ≤ 0 ∧ s.p2.health ≤ 0 then
      { s with round_active := false, round_winner := some .Draw }
    else if s.p1.health ≤ 0 then
      { s with round_active := false, round_winner := some .P2,
               p2 := { s.p2 with rounds := s.p2.rounds + 1 } }
    else
      { s with round_active := false, round_winner := some .P1,
               p1 := { s.p1 with rounds := s.p1.rounds + 1 } }
  else s

/-- Body of the `if round_active:` block of the main loop: timer check,
p1 update, p2 update (seeing the already-updated p1, as the source mutates
in place), both resolver passes, knockout check.  Note that once the block
has been entered, the updates and resolver still run even if the timer
check just ended the round. -/
def activePhase (s : GameState) (i : Input) : GameState :=
  let s1 := timerPhase s i.secondElapsed
  let q1 := s1.p1.update i.k1 s1.p2
  let q2 := s1.p2.update i.k2 q1
  deathPhase (resolve2 (resolve1 { s1 with p1 := q1, p2 := q2 }))

/-- One iteration of the main loop: SPACE handling, then the round-active
block (entered iff the round is active after event handling). -/
def tick (s : GameState) (i : Input) : GameState :=
  let s0 := spacePhase s i.space
  if s0.round_active then activePhase s0 i else s0

/-- A fighter as constructed at match start: grounded at the given spawn x,
full health, everything else zero. -/
def mkPlayer (x : ℚ) (facing : ℤ) : Player :=
  { x := x, y := GROUND_Y - PLAYER_HEIGHT, vx := 0, vy := 0,
    facing := facing, on_ground := true,
    attack_timer := 0, is_attacking := false,
    health := MAX_HEALTH, hit_stun := 0, invuln := 0,
    rounds := 0, combo := 0, combo_timer := 0 }

/-- The state at match start: `Player(WIDTH * 0.25, ..., facing=1)` and
`Player(WIDTH * 0.75, ..., facing=-1)`, a fresh active round. -/
def initState : GameState :=
  { p1 := mkPlayer (WIDTH * (25 / 100)) 1,
    p2 := mkPlayer (WIDTH * (75 / 100)) (-1),
    round_time_left := ROUND_TIME,
    round_active := true,
    round_winner := none,
    hits1 := 0, hits2 := 0 }

/-- Run the simulation over a list of per-frame inputs. -/
def run (s : GameState) (l : List Input) : GameState := l.foldl tick s

/-- A state is reachable when some sequence of ticks from match start
produces it. -/
def Reachable (s : GameState) : Prop := ∃ l : List Input, run initState l = s

/-- Match-winner flag computed by the controller once a round has ended:
when either fighter's round count has reached `ROUNDS_TO_WIN`, the
displayed champion is Player 1 iff p1 has strictly more rounds, else
Player 2 (the source's one-armed conditional expression). -/
def champFlag (s : GameState) : Option Winner :=
  if s.round_active = false ∧ (s.p1.rounds ≥ ROUNDS_TO_WIN ∨ s.p2.rounds ≥ ROUNDS_TO_WIN) then
    some (if s.p1.rounds > s.p2.rounds then .P1 else .P2)
  else none


/-! ### Concrete states and input scripts used by witnesses and counterexamples -/

/-- No button held. -/
def noKeys : PKeys := ⟨false, false, false, false⟩

/-- A frame with no buttons, no elapsed second, no continue signal. -/
def idleInput : Input := ⟨noKeys, noKeys, false, false⟩

/-- A fighter standing at x = 300 in mid-swing (attack active, 5 frames
left) with 5 health. -/
def duelP1 : Player :=
  { x := 300, y := GROUND_Y - PLAYER_HEIGHT, vx := 0, vy := 0, facing := 1,
    on_ground := true, attack_timer := 5, is_attacking := true, health := 5,
    hit_stun := 0, invuln := 0, rounds := 0, combo := 0, combo_timer := 0 }

/-- A vulnerable fighter standing at x = 360 (inside `duelP1`'s melee
reach) with 10 health. -/
def duelP2 : Player :=
  { x := 360, y := GROUND_Y - PLAYER_HEIGHT, vx := 0, vy := 0, facing := -1,
    on_ground := true, attack_timer := 0, is_attacking := false, health := 10,
    hit_stun := 0, invuln := 0, rounds := 0, combo := 0, combo_timer := 0 }

/-- Round-active state on the last timer second: p1 mid-swing in reach of
p2, p1 at 5 health, p2 at 10 health, one second left on the clock. -/
def lastSecondState : GameState :=
  { p1 := duelP1, p2 := duelP2, round_time_left := 1, round_active := true,
    round_winner := none, hits1 := 0, hits2 := 0 }

/-- The frame input on which the wall clock crosses the final second. -/
def lastSecondInput : Input := ⟨noKeys, noKeys, true, false⟩

/-- Same duel but with full time and full p2 health: used to exhibit a
single accepted hit and the absence of any follow-up hit. -/
def swingState : GameState :=
  { p1 := { duelP1 with health := 100 },
    p2 := { duelP2 with health := 100 },
    round_time_left := ROUND_TIME, round_active := true,
    round_winner := none, hits1 := 0, hits2 := 0 }

/-- A fighter in hit stun (5 frames left) facing right. -/
def stunnedP : Player :=
  { x := 600, y := GROUND_Y - PLAYER_HEIGHT, vx := 0, vy := 0, facing := 1,
    on_ground := true, attack_timer := 0, is_attacking := false, health := 80,
    hit_stun := 5, invuln := 10, rounds := 0, combo := 0, combo_timer := 0 }

/-- An opponent standing to the left of `stunnedP`. -/
def leftOpponent : Player :=
  { x := 100, y := GROUND_Y - PLAYER_HEIGHT, vx := 0, vy := 0, facing := 1,
    on_ground := true, attack_timer := 0, is_attacking := false, health := 80,
    hit_stun := 0, invuln := 0, rounds := 0, combo := 0, combo_timer := 0 }

/-- A round-ended state with the score 2 : 1. -/
def matchPointState : GameState :=
  { p1 := { duelP1 with health := 40, is_attacking := false, attack_timer := 0, rounds := 2 },
    p2 := { duelP2 with health := 60, rounds := 1 },
    round_time_left := 20, round_active := false,
    round_winner := some .P1, hits1 := 0, hits2 := 0 }

/-- A round-active state with the score 2 : 1 in which p2 is mid-swing in
reach of p1, and p1 is one hit from knockout. -/
def overtakeState : GameState :=
  { p1 := { duelP1 with is_attacking := false, attack_timer := 0, rounds := 2 },
    p2 := { duelP2 with health := 60, is_attacking := true, attack_timer := 5, rounds := 1 },
    round_time_left := 20, round_active := true,
    round_winner := none, hits1 := 0, hits2 := 0 }

/-- Input script of the health-goes-negative run: p1 walks right for 113
frames and then presses attack every 30th frame; p2 walks right into the
right wall for 39 frames and then idles.  The wall pins p2 so every swing
connects as soon as invulnerability expires. -/
def inputAt (t : ℕ) : Input :=
  { k1 := ⟨false, decide (t < 113), false, decide (113 ≤ t ∧ (t - 113) % 30 = 0)⟩,
    k2 := ⟨false, decide (t < 39), false, false⟩,
    secondElapsed := false, space := false }

/-- Frames `a, a+1, ..., a+b-1` of the script, as an input list. -/
def chunk (a b : ℕ) : List Input := (List.range' a b).map inputAt

/-- The whole 354-frame script of the health-goes-negative run. -/
def script : List Input :=
  chunk 0 20 ++ chunk 20 20 ++ chunk 40 20 ++ chunk 60 20 ++ chunk 80 20 ++
  chunk 100 20 ++ chunk 120 20 ++ chunk 140 20 ++ chunk 160 20 ++ chunk 180 20 ++
  chunk 200 20 ++ chunk 220 20 ++ chunk 240 20 ++ chunk 260 20 ++ chunk 280 20 ++
  chunk 300 20 ++ chunk 320 20 ++ chunk 340 14

/-- State of the counterexample run after 20 ticks (generated value). -/
def cex20 : GameState where
  p1 :=
    { x := mkRat (340) 1, y := mkRat (388) 1,
        vx := mkRat (5) 1, vy := mkRat (0) 1,
        facing := 1, on_ground := true,
        attack_timer := 0, is_attacking := false, health := 100, hit_stun := 0,
        invuln := 0, rounds := 0, combo := 0, combo_timer := 0 }
  p2 :=
    { x := mkRat (820) 1, y := mkRat (388) 1,
        vx := mkRat (5) 1, vy := mkRat (0) 1,
        facing := -1, on_ground := true,
        attack_timer := 0, is_attacking := false, health := 100, hit_stun := 0,
        invuln := 0, rounds := 0, combo := 0, combo_timer := 0 }
  round_time_left := 60
  round_active := true
  round_winner := none
  hits1 := 0
  hits2 := 0

/-- State of the counterexample run after 40 ticks (generated value). -/
def cex40 : GameState where
  p1 :=
    { x := mkRat (440) 1, y := mkRat (388) 1,
        vx := mkRat (5) 1, vy := mkRat (0) 1,
        facing := 1, on_ground := true,
        attack_timer := 0, is_attacking := false, health := 100, hit_stun := 0,
        invuln := 0, rounds := 0, combo := 0, combo_timer := 0 }
  p2 :=
    { x := mkRat (912) 1, y := mkRat (388) 1,
        vx := mkRat (4) 1, vy := mkRat (0) 1,
        facing := -1, on_ground := true,
        attack_timer := 0, is_attacking := false, health := 100, hit_stun := 0,
        invuln := 0, rounds := 0, combo := 0, combo_timer := 0 }
  round_time_left := 60
  round_active := true
  round_winner := none
  hits1 := 0
  hits2 := 0

/-- State of the counterexample run after 60 ticks (generated value). -/
def cex60 : GameState where
  p1 :=
    { x := mkRat (540) 1, y := mkRat (388) 1,
        vx := mkRat (5) 1, vy := mkRat (0) 1,
        facing := 1, on_ground := true,
        attack_timer := 0, is_attacking := false, health := 100, hit_stun := 0,
        invuln := 0, rounds := 0, combo := 0, combo_timer := 0 }
  p2 :=
    { x := mkRat (912) 1, y := mkRat (388) 1,
        vx := mkRat (0) 1, vy := mkRat (0) 1,
        facing := -1, on_ground := true,
        attack_timer := 0, is_attacking := false, health := 100, hit_stun := 0,
        invuln := 0, rounds := 0, combo := 0, combo_timer := 0 }
  round_time_left := 60
  round_active := true
  round_winner := none
  hits1 := 0
  hits2 := 0

/-- State of the counterexample run after 80 ticks (generated value). -/
def cex80 : GameState where
  p1 :=
    { x := mkRat (640) 1, y := mkRat (388) 1,
        vx := mkRat (5) 1, vy := mkRat (0) 1,
        facing := 1, on_ground := true,
        attack_timer := 0, is_attacking := false, health := 100, hit_stun := 0,
        invuln := 0, rounds := 0, combo := 0, combo_timer := 0 }
  p2 :=
    { x := mkRat (912) 1, y := mkRat (388) 1,
        vx := mkRat (0) 1, vy := mkRat (0) 1,
        facing := -1, on_ground := true,
        attack_timer := 0, is_attacking := false, health := 100, hit_stun := 0,
        invuln := 0, rounds := 0, combo := 0, combo_timer := 0 }
  round_time_left := 60
  round_active := true
  round_winner := none
  hits1 := 0
  hits2 := 0

/-- State of the counterexample run after 100 ticks (generated value). -/
def cex100 : GameState where
  p1 :=
    { x := mkRat (740) 1, y := mkRat (388) 1,
        vx := mkRat (5) 1, vy := mkRat (0) 1,
        facing := 1, on_ground := true,
        attack_timer := 0, is_attacking := false, health := 100, hit_stun := 0,
        invuln := 0, rounds := 0, combo := 0, combo_timer := 0 }
  p2 :=
    { x := mkRat (912) 1, y := mkRat (388) 1,
        vx := mkRat (0) 1, vy := mkRat (0) 1,
        facing := -1, on_ground := true,
        attack_timer := 0, is_attacking := false, health := 100, hit_stun := 0,
        invuln := 0, rounds := 0, combo := 0, combo_timer := 0 }
  round_time_left := 60
  round_active := true
  round_winner := none
  hits1 := 0
  hits2 := 0

/-- State of the counterexample run after 120 ticks (generated value). -/
def cex120 : GameState where
  p1 :=
    { x := mkRat (12948571) 15625, y := mkRat (388) 1,
        vx := mkRat (24576) 15625, vy := mkRat (0) 1,
        facing := 1, on_ground := true,
        attack_timer := 0, is_attacking := false, health := 100, hit_stun := 0,
        invuln := 0, rounds := 0, combo := 0, combo_timer := 0 }
  p2 :=
    { x := mkRat (912) 1, y := mkRat (3709) 10,
        vx := mkRat (531441) 100000, vy := mkRat (-3) 5,
        facing := -1, on_ground := false,
        attack_timer := 0, is_attacking := false, health := 88, hit_stun := 14,
        invuln := 24, rounds := 0, combo := 1, combo_timer := 54 }
  round_time_left := 60
  round_active := true
  round_winner := none
  hits1 := 1
  hits2 := 0

/-- State of the counterexample run after 140 ticks (generated value). -/
def cex140 : GameState where
  p1 :=
    { x := mkRat (25456407930599) 30517578125, y := mkRat (388) 1,
        vx := mkRat (0) 1, vy := mkRat (0) 1,
        facing := 1, on_ground := true,
        attack_timer := 0, is_attacking := false, health := 100, hit_stun := 0,
        invuln := 0, rounds := 0, combo := 0, combo_timer := 0 }
  p2 :=
    { x := mkRat (912) 1, y := mkRat (388) 1,
        vx := mkRat (1350851717672992089) 4768371582031250000, vy := mkRat (0) 1,
        facing := -1, on_ground := true,
        attack_timer := 0, is_attacking := false, health := 88, hit_stun := 0,
        invuln := 4, rounds := 0, combo := 1, combo_timer := 34 }
  round_time_left := 60
  round_active := true
  round_winner := none
  hits1 := 1
  hits2 := 0

/-- State of the counterexample run after 160 ticks (generated value). -/
def cex160 : GameState where
  p1 :=
    { x := mkRat (25735369311849) 30517578125, y := mkRat (388) 1,
        vx := mkRat (0) 1, vy := mkRat (0) 1,
        facing := 1, on_ground := true,
        attack_timer := 0, is_attacking := false, health := 100, hit_stun := 0,
        invuln := 0, rounds := 0, combo := 0, combo_timer := 0 }
  p2 :=
    { x := mkRat (912) 1, y := mkRat (388) 1,
        vx := mkRat (1853020188851841) 1000000000000000, vy := mkRat (0) 1,
        facing := -1, on_ground := true,
        attack_timer := 0, is_attacking := false, health := 76, hit_stun := 4,
        invuln := 14, rounds := 0, combo := 2, combo_timer := 44 }
  round_time_left := 60
  round_active := true
  round_winner := none
  hits1 := 2
  hits2 := 0

/-- State of the counterexample run after 180 ticks (generated value). -/
def cex180 : GameState where
  p1 :=
    { x := mkRat (25976545093099) 30517578125, y := mkRat (388) 1,
        vx := mkRat (8192) 15625, vy := mkRat (0) 1,
        facing := 1, on_ground := true,
        attack_timer := 0, is_attacking := false, health := 100, hit_stun := 0,
        invuln := 0, rounds := 0, combo := 0, combo_timer := 0 }
  p2 :=
    { x := mkRat (912) 1, y := mkRat (3709) 10,
        vx := mkRat (531441) 100000, vy := mkRat (-3) 5,
        facing := -1, on_ground := false,
        attack_timer := 0, is_attacking := false, health := 64, hit_stun := 14,
        invuln := 24, rounds := 0, combo := 3, combo_timer := 54 }
  round_time_left := 60
  round_active := true
  round_winner := none
  hits1 := 3
  hits2 := 0

/-- State of the counterexample run after 200 ticks (generated value). -/
def cex200 : GameState where
  p1 :=
    { x := mkRat (26014330693099) 30517578125, y := mkRat (388) 1,
        vx := mkRat (0) 1, vy := mkRat (0) 1,
        facing := 1, on_ground := true,
        attack_timer := 0, is_attacking := false, health := 100, hit_stun := 0,
        invuln := 0, rounds := 0, combo := 0, combo_timer := 0 }
  p2 :=
    { x := mkRat (912) 1, y := mkRat (388) 1,
        vx := mkRat (1350851717672992089) 4768371582031250000, vy := mkRat (0) 1,
        facing := -1, on_ground := true,
        attack_timer := 0, is_attacking := false, health := 64, hit_stun := 0,
        invuln := 4, rounds := 0, combo := 3, combo_timer := 34 }
  round_time_left := 60
  round_active := true
  round_winner := none
  hits1 := 3
  hits2 := 0

/-- State of the counterexample run after 220 ticks (generated value). -/
def cex220 : GameState where
  p1 :=
    { x := mkRat (26293292074349) 30517578125, y := mkRat (388) 1,
        vx := mkRat (0) 1, vy := mkRat (0) 1,
        facing := 1, on_ground := true,
        attack_timer := 0, is_attacking := false, health := 100, hit_stun := 0,
        invuln := 0, rounds := 0, combo := 0, combo_timer := 0 }
  p2 :=
    { x := mkRat (912) 1, y := mkRat (388) 1,
        vx := mkRat (1853020188851841) 1000000000000000, vy := mkRat (0) 1,
        facing := -1, on_ground := true,
        attack_timer := 0, is_attacking := false, health := 52, hit_stun := 4,
        invuln := 14, rounds := 0, combo := 4, combo_timer := 44 }
  round_time_left := 60
  round_active := true
  round_winner := none
  hits1 := 4
  hits2 := 0

/-- State of the counterexample run after 240 ticks (generated value). -/
def cex240 : GameState where
  p1 :=
    { x := mkRat (26534467855599) 30517578125, y := mkRat (388) 1,
        vx := mkRat (8192) 15625, vy := mkRat (0) 1,
        facing := 1, on_ground := true,
        attack_timer := 0, is_attacking := false, health := 100, hit_stun := 0,
        invuln := 0, rounds := 0, combo := 0, combo_timer := 0 }
  p2 :=
    { x := mkRat (912) 1, y := mkRat (3709) 10,
        vx := mkRat (531441) 100000, vy := mkRat (-3) 5,
        facing := -1, on_ground := false,
        attack_timer := 0, is_attacking := false, health := 40, hit_stun := 14,
        invuln := 24, rounds := 0, combo := 5, combo_timer := 54 }
  round_time_left := 60
  round_active := true
  round_winner := none
  hits1 := 5
  hits2 := 0

/-- State of the counterexample run after 260 ticks (generated value). -/
def cex260 : GameState where
  p1 :=
    { x := mkRat (26572253455599) 30517578125, y := mkRat (388) 1,
        vx := mkRat (0) 1, vy := mkRat (0) 1,
        facing := 1, on_ground := true,
        attack_timer := 0, is_attacking := false, health := 100, hit_stun := 0,
        invuln := 0, rounds := 0, combo := 0, combo_timer := 0 }
  p2 :=
    { x := mkRat (912) 1, y := mkRat (388) 1,
        vx := mkRat (1350851717672992089) 4768371582031250000, vy := mkRat (0) 1,
        facing := -1, on_ground := true,
        attack_timer := 0, is_attacking := false, health := 40, hit_stun := 0,
        invuln := 4, rounds := 0, combo := 5, combo_timer := 34 }
  round_time_left := 60
  round_active := true
  round_winner := none
  hits1 := 5
  hits2 := 0

/-- State of the counterexample run after 280 ticks (generated value). -/
def cex280 : GameState where
  p1 :=
    { x := mkRat (26851214836849) 30517578125, y := mkRat (388) 1,
        vx := mkRat (0) 1, vy := mkRat (0) 1,
        facing := 1, on_ground := true,
        attack_timer := 0, is_attacking := false, health := 100, hit_stun := 0,
        invuln := 0, rounds := 0, combo := 0, combo_timer := 0 }
  p2 :=
    { x := mkRat (912) 1, y := mkRat (388) 1,
        vx := mkRat (1853020188851841) 1000000000000000, vy := mkRat (0) 1,
        facing := -1, on_ground := true,
        attack_timer := 0, is_attacking := false, health := 28, hit_stun := 4,
        invuln := 14, rounds := 0, combo := 6, combo_timer := 44 }
  round_time_left := 60
  round_active := true
  round_winner := none
  hits1 := 6
  hits2 := 0

/-- State of the counterexample run after 300 ticks (generated value). -/
def cex300 : GameState where
  p1 :=
    { x := mkRat (27092390618099) 30517578125, y := mkRat (388) 1,
        vx := mkRat (8192) 15625, vy := mkRat (0) 1,
        facing := 1, on_ground := true,
        attack_timer := 0, is_attacking := false, health := 100, hit_stun := 0,
        invuln := 0, rounds := 0, combo := 0, combo_timer := 0 }
  p2 :=
    { x := mkRat (912) 1, y := mkRat (3709) 10,
        vx := mkRat (531441) 100000, vy := mkRat (-3) 5,
        facing := -1, on_ground := false,
        attack_timer := 0, is_attacking := false, health := 16, hit_stun := 14,
        invuln := 24, rounds := 0, combo := 7, combo_timer := 54 }
  round_time_left := 60
  round_active := true
  round_winner := none
  hits1 := 7
  hits2 := 0

/-- State of the counterexample run after 320 ticks (generated value). -/
def cex320 : GameState where
  p1 :=
    { x := mkRat (27130176218099) 30517578125, y := mkRat (388) 1,
        vx := mkRat (0) 1, vy := mkRat (0) 1,
        facing := 1, on_ground := true,
        attack_timer := 0, is_attacking := false, health := 100, hit_stun := 0,
        invuln := 0, rounds := 0, combo := 0, combo_timer := 0 }
  p2 :=
    { x := mkRat (912) 1, y := mkRat (388) 1,
        vx := mkRat (1350851717672992089) 4768371582031250000, vy := mkRat (0) 1,
        facing := -1, on_ground := true,
        attack_timer := 0, is_attacking := false, health := 16, hit_stun := 0,
        invuln := 4, rounds := 0, combo := 7, combo_timer := 34 }
  round_time_left := 60
  round_active := true
  round_winner := none
  hits1 := 7
  hits2 := 0

/-- State of the counterexample run after 340 ticks (generated value). -/
def cex340 : GameState where
  p1 :=
    { x := mkRat (27409137599349) 30517578125, y := mkRat (388) 1,
        vx := mkRat (0) 1, vy := mkRat (0) 1,
        facing := 1, on_ground := true,
        attack_timer := 0, is_attacking := false, health := 100, hit_stun := 0,
        invuln := 0, rounds := 0, combo := 0, combo_timer := 0 }
  p2 :=
    { x := mkRat (912) 1, y := mkRat (388) 1,
        vx := mkRat (1853020188851841) 1000000000000000, vy := mkRat (0) 1,
        facing := -1, on_ground := true,
        attack_timer := 0, is_attacking := false, health := 4, hit_stun := 4,
        invuln := 14, rounds := 0, combo := 8, combo_timer := 44 }
  round_time_left := 60
  round_active := true
  round_winner := none
  hits1 := 8
  hits2 := 0

/-- State of the counterexample run after 354 ticks (generated value). -/
def cex354 : GameState where
  p1 :=
    { x := mkRat (27470172755599) 30517578125, y := mkRat (388) 1,
        vx := mkRat (2) 1, vy := mkRat (0) 1,
        facing := 1, on_ground := true,
        attack_timer := 0, is_attacking := false, health := 100, hit_stun := 0,
        invuln := 0, rounds := 1, combo := 0, combo_timer := 0 }
  p2 :=
    { x := mkRat (912) 1, y := mkRat (388) 1,
        vx := mkRat (10) 1, vy := mkRat (-6) 1,
        facing := -1, on_ground := true,
        attack_timer := 0, is_attacking := false, health := -8, hit_stun := 20,
        invuln := 30, rounds := 0, combo := 9, combo_timer := 60 }
  round_time_left := 60
  round_active := false
  round_winner := some Winner.P1
  hits1 := 9
  hits2 := 0

/-!
### Helper lemmas

Batteries marks the arithmetic of `Rat` `@[irreducible]`, which blocks
elaborator-side evaluation of concrete states (the kernel itself reduces
them fine); restore semireducibility so that `decide` can evaluate the
model on concrete inputs.
-/

set_option maxRecDepth 40000

set_option allowUnsafeReducibility true in
attribute [semireducible] Rat.add Rat.sub Rat.mul Rat.inv

/-- Running a concatenated input script is running the pieces in turn. -/
theorem run_append (s : GameState) (l1 l2 : List Input) :
    run s (l1 ++ l2) = run (run s l1) l2 :=
  List.foldl_append ..

/-- Evaluation of frames 0-19 of the counterexample run. -/
theorem c5run20 : run initState (chunk 0 20) = cex20 := by
  decide

/-- Evaluation of frames 20-39 of the counterexample run. -/
theorem c5run40 : run cex20 (chunk 20 20) = cex40 := by
  decide

/-- Evaluation of frames 40-59 of the counterexample run. -/
theorem c5run60 : run cex40 (chunk 40 20) = cex60 := by
  decide

/-- Evaluation of frames 60-79 of the counterexample run. -/
theorem c5run80 : run cex60 (chunk 60 20) = cex80 := by
  decide

/-- Evaluation of frames 80-99 of the counterexample run. -/
theorem c5run100 : run cex80 (chunk 80 20) = cex100 := by
  decide

/-- Evaluation of frames 100-119 of the counterexample run. -/
theorem c5run120 : run cex100 (chunk 100 20) = cex120 := by
  decide

/-- Evaluation of frames 120-139 of the counterexample run. -/
theorem c5run140 : run cex120 (chunk 120 20) = cex140 := by
  decide

/-- Evaluation of frames 140-159 of the counterexample run. -/
theorem c5run160 : run cex140 (chunk 140 20) = cex160 := by
  decide

/-- Evaluation of frames 160-179 of the counterexample run. -/
theorem c5run180 : run cex160 (chunk 160 20) = cex180 := by
  decide

/-- Evaluation of frames 180-199 of the counterexample run. -/
theorem c5run200 : run cex180 (chunk 180 20) = cex200 := by
  decide

/-- Evaluation of frames 200-219 of the counterexample run. -/
theorem c5run220 : run cex200 (chunk 200 20) = cex220 := by
  decide

/-- Evaluation of frames 220-239 of the counterexample run. -/
theorem c5run240 : run cex220 (chunk 220 20) = cex240 := by
  decide

/-- Evaluation of frames 240-259 of the counterexample run. -/
theorem c5run260 : run cex240 (chunk 240 20) = cex260 := by
  decide

/-- Evaluation of frames 260-279 of the counterexample run. -/
theorem c5run280 : run cex260 (chunk 260 20) = cex280 := by
  decide

/-- Evaluation of frames 280-299 of the counterexample run. -/
theorem c5run300 : run cex280 (chunk 280 20) = cex300 := by
  decide

/-- Evaluation of frames 300-319 of the counterexample run. -/
theorem c5run320 : run cex300 (chunk 300 20) = cex320 := by
  decide

/-- Evaluation of frames 320-339 of the counterexample run. -/
theorem c5run340 : run cex320 (chunk 320 20) = cex340 := by
  decide

/-- Evaluation of frames 340-353 of the counterexample run. -/
theorem c5run354 : run cex340 (chunk 340 14) = cex354 := by
  decide

/-- The full counterexample run: 354 frames from match start. -/
theorem c5run_all : run initState script = cex354 := by
  unfold script
  simp only [run_append]
  rw [c5run20, c5run40, c5run60, c5run80, c5run100, c5run120, c5run140,
      c5run160, c5run180, c5run200, c5run220, c5run240, c5run260, c5run280,
      c5run300, c5run320, c5run340, c5run354]

/- The symbolic lemmas below do not evaluate concrete rational arithmetic;
restore the library's irreducibility to keep definitional unfolding cheap. -/
set_option allowUnsafeReducibility true in
attribute [irreducible] Rat.add Rat.sub Rat.mul Rat.inv

/-! ### Fighter-level lemmas: which fields each update block can change -/

theorem start_attack_health (p : Player) : (p.start_attack).1.health = p.health := by
  simp only [Player.start_attack]
  split_ifs <;> rfl

theorem start_attack_rounds (p : Player) : (p.start_attack).1.rounds = p.rounds := by
  simp only [Player.start_attack]
  split_ifs <;> rfl

theorem apply_gravity_health (p : Player) : p.apply_gravity.health = p.health := by
  simp only [Player.apply_gravity]
  split_ifs <;> rfl

theorem apply_gravity_rounds (p : Player) : p.apply_gravity.rounds = p.rounds := by
  simp only [Player.apply_gravity]
  split_ifs <;> rfl

theorem apply_gravity_is_attacking (p : Player) :
    p.apply_gravity.is_attacking = p.is_attacking := by
  simp only [Player.apply_gravity]
  split_ifs <;> rfl

theorem apply_gravity_facing (p : Player) : p.apply_gravity.facing = p.facing := by
  simp only [Player.apply_gravity]
  split_ifs <;> rfl

theorem input_move_health (p : Player) (k : PKeys) : (p.input_move k).health = p.health := by
  simp only [Player.input_move]
  split_ifs <;> rfl

theorem input_move_rounds (p : Player) (k : PKeys) : (p.input_move k).rounds = p.rounds := by
  simp only [Player.input_move]
  split_ifs <;> rfl

theorem input_move_is_attacking (p : Player) (k : PKeys) :
    (p.input_move k).is_attacking = p.is_attacking := by
  simp only [Player.input_move]
  split_ifs <;> rfl

theorem do_jump_health (p : Player) (k : PKeys) : (p.do_jump k).health = p.health := by
  simp only [Player.do_jump]
  split_ifs <;> rfl

theorem do_jump_rounds (p : Player) (k : PKeys) : (p.do_jump k).rounds = p.rounds := by
  simp only [Player.do_jump]
  split_ifs <;> rfl

theorem do_jump_is_attacking (p : Player) (k : PKeys) :
    (p.do_jump k).is_attacking = p.is_attacking := by
  simp only [Player.do_jump]
  split_ifs <;> rfl

theorem do_attack_health (p : Player) (k : PKeys) : (p.do_attack k).health = p.health := by
  simp only [Player.do_attack]
  split_ifs
  · exact start_attack_health p
  · rfl

theorem do_attack_rounds (p : Player) (k : PKeys) : (p.do_attack k).rounds = p.rounds := by
  simp only [Player.do_attack]
  split_ifs
  · exact start_attack_rounds p
  · rfl

/-- With the attack key up, the attack block does nothing. -/
theorem do_attack_of_up (p : Player) (k : PKeys) (h : k.attack = false) :
    p.do_attack k = p := by
  simp only [Player.do_attack]
  simp [h]

theorem move_x_health (p : Player) : p.move_x.health = p.health := rfl

theorem move_x_rounds (p : Player) : p.move_x.rounds = p.rounds := rfl

theorem move_x_is_attacking (p : Player) : p.move_x.is_attacking = p.is_attacking := rfl

theorem face_opponent_health (p o : Player) : (p.face_opponent o).health = p.health := rfl

theorem face_opponent_rounds (p o : Player) : (p.face_opponent o).rounds = p.rounds := rfl

theorem face_opponent_is_attacking (p o : Player) :
    (p.face_opponent o).is_attacking = p.is_attacking := rfl

theorem face_opponent_center_x (p o : Player) :
    (p.face_opponent o).center_x = p.center_x := rfl

theorem stun_update_health (p : Player) : p.stun_update.health = p.health := by
  simp only [Player.stun_update]
  show p.apply_gravity.health = p.health
  exact apply_gravity_health p

theorem stun_update_rounds (p : Player) : p.stun_update.rounds = p.rounds := by
  simp only [Player.stun_update]
  show p.apply_gravity.rounds = p.rounds
  exact apply_gravity_rounds p

theorem stun_update_is_attacking (p : Player) :
    p.stun_update.is_attacking = p.is_attacking := by
  simp only [Player.stun_update]
  show p.apply_gravity.is_attacking = p.is_attacking
  exact apply_gravity_is_attacking p

theorem stun_update_facing (p : Player) : p.stun_update.facing = p.facing := by
  simp only [Player.stun_update]
  show p.apply_gravity.facing = p.facing
  exact apply_gravity_facing p

theorem free_update_health (p : Player) (k : PKeys) (o : Player) :
    (p.free_update k o).health = p.health := by
  simp only [Player.free_update]
  rw [face_opponent_health, apply_gravity_health, move_x_health, do_attack_health,
      do_jump_health, input_move_health]

theorem free_update_rounds (p : Player) (k : PKeys) (o : Player) :
    (p.free_update k o).rounds = p.rounds := by
  simp only [Player.free_update]
  rw [face_opponent_rounds, apply_gravity_rounds, move_x_rounds, do_attack_rounds,
      do_jump_rounds, input_move_rounds]

/-- After the free (non-stunned) branch the facing points at the opponent:
right exactly when the opponent's center is strictly to the right of the
fighter's final center, left otherwise. -/
theorem free_update_facing (p : Player) (k : PKeys) (o : Player) :
    (p.free_update k o).facing =
      if o.center_x > (p.free_update k o).center_x then 1 else -1 := by
  simp only [Player.free_update, face_opponent_center_x]
  rfl

theorem free_update_not_attacking (p : Player) (k : PKeys) (o : Player)
    (h1 : p.is_attacking = false) (h2 : k.attack = false) :
    (p.free_update k o).is_attacking = false := by
  simp only [Player.free_update]
  rw [face_opponent_is_attacking, apply_gravity_is_attacking, move_x_is_attacking,
      do_attack_of_up _ _ h2, do_jump_is_attacking, input_move_is_attacking, h1]

/-- The timer block never changes health. -/
theorem step_timers_health (p : Player) : p.step_timers.health = p.health := by
  simp only [Player.step_timers]
  split_ifs <;> rfl

/-- The timer block never changes the round count. -/
theorem step_timers_rounds (p : Player) : p.step_timers.rounds = p.rounds := by
  simp only [Player.step_timers]
  split_ifs <;> rfl

/-- The timer block never changes the facing. -/
theorem step_timers_facing (p : Player) : p.step_timers.facing = p.facing := by
  simp only [Player.step_timers]
  split_ifs <;> rfl

/-- The timer block decrements the hit-stun countdown (truncated at 0). -/
theorem step_timers_hit_stun (p : Player) : p.step_timers.hit_stun = p.hit_stun - 1 := by
  simp only [Player.step_timers]
  split_ifs <;> simp_all

/-- The timer block never sets the attacking flag. -/
theorem step_timers_not_attacking (p : Player) (h : p.is_attacking = false) :
    p.step_timers.is_attacking = false := by
  simp only [Player.step_timers]
  split_ifs <;> simp_all

/-- With at most one frame of hit stun left on entry, the update takes the
free (input-processing) branch. -/
theorem update_free_eq (p : Player) (k : PKeys) (o : Player) (h : p.hit_stun ≤ 1) :
    p.update k o = p.step_timers.free_update k o := by
  simp only [Player.update]
  rw [if_neg (by rw [step_timers_hit_stun]; omega)]

/-- With at least two frames of hit stun on entry, the update takes the
early-return stunned branch. -/
theorem update_stun_eq (p : Player) (k : PKeys) (o : Player) (h : 2 ≤ p.hit_stun) :
    p.update k o = p.step_timers.stun_update := by
  simp only [Player.update]
  rw [if_pos (by rw [step_timers_hit_stun]; omega)]

/-- A fighter update never changes health. -/
theorem update_health (p : Player) (k : PKeys) (o : Player) :
    (p.update k o).health = p.health := by
  simp only [Player.update]
  split
  · rw [stun_update_health, step_timers_health]
  · rw [free_update_health, step_timers_health]

/-- A fighter update never changes the round count. -/
theorem update_rounds (p : Player) (k : PKeys) (o : Player) :
    (p.update k o).rounds = p.rounds := by
  simp only [Player.update]
  split
  · rw [stun_update_rounds, step_timers_rounds]
  · rw [free_update_rounds, step_timers_rounds]

/-- A fighter who is not attacking and whose attack key is up stays not
attacking through an update. -/
theorem update_not_attacking (p : Player) (k : PKeys) (o : Player)
    (h1 : p.is_attacking = false) (h2 : k.attack = false) :
    (p.update k o).is_attacking = false := by
  simp only [Player.update]
  split
  · rw [stun_update_is_attacking]
    exact step_timers_not_attacking p h1
  · exact free_update_not_attacking _ _ _ (step_timers_not_attacking p h1) h2

/-- A rejected hit returns the fighter unchanged. -/
theorem receive_hit_false (p : Player) (d dir : ℤ)
    (h : (p.receive_hit d dir).1 = false) : (p.receive_hit d dir).2 = p := by
  simp only [Player.receive_hit] at *
  split_ifs at *
  simp_all

/-- `receive_hit` never touches the attack state or the round count. -/
theorem receive_hit_untouched (p : Player) (d dir : ℤ) :
    (p.receive_hit d dir).2.is_attacking = p.is_attacking ∧
    (p.receive_hit d dir).2.attack_timer = p.attack_timer ∧
    (p.receive_hit d dir).2.rounds = p.rounds := by
  simp only [Player.receive_hit]
  split_ifs <;> exact ⟨rfl, rfl, rfl⟩

/-- A hit of nonnegative damage cannot raise health. -/
theorem receive_hit_health_le (p : Player) (d dir : ℤ) (h : 0 ≤ d) :
    (p.receive_hit d dir).2.health ≤ p.health := by
  simp only [Player.receive_hit]
  split_ifs
  · exact le_refl _
  · show p.health - d ≤ p.health
    omega

/-! ### Controller-level lemmas: what each phase of the tick can change -/

/-- SPACE handling is the identity while the round is active or when SPACE
is not pressed. -/
theorem spacePhase_id (s : GameState) (b : Bool)
    (h : s.round_active = true ∨ b = false) : spacePhase s b = s := by
  simp only [spacePhase]
  split_ifs with hc
  · rcases h with h | h
    · rw [h] at hc
      simp at hc
    · rw [h] at hc
      simp at hc
  · rfl

/-- SPACE handling never touches the hit counters or round counts, can only
restore health to `MAX_HEALTH`, and never sets the attacking flag. -/
theorem spacePhase_pres (s : GameState) (b : Bool) :
    (spacePhase s b).hits1 = s.hits1 ∧ (spacePhase s b).hits2 = s.hits2 ∧
    (spacePhase s b).p1.rounds = s.p1.rounds ∧ (spacePhase s b).p2.rounds = s.p2.rounds ∧
    ((spacePhase s b).p1.health = s.p1.health ∨ (spacePhase s b).p1.health = MAX_HEALTH) ∧
    ((spacePhase s b).p2.health = s.p2.health ∨ (spacePhase s b).p2.health = MAX_HEALTH) ∧
    (s.p1.is_attacking = false → (spacePhase s b).p1.is_attacking = false) ∧
    (s.p2.is_attacking = false → (spacePhase s b).p2.is_attacking = false) := by
  simp only [spacePhase, round_reset]
  split_ifs
  · exact ⟨rfl, rfl, rfl, rfl, Or.inr rfl, Or.inr rfl, fun _ => rfl, fun _ => rfl⟩
  · exact ⟨rfl, rfl, rfl, rfl, Or.inl rfl, Or.inl rfl, fun h => h, fun h => h⟩

/-- The timer phase never touches the fighters' attack state, health or the
hit counters, and can only increase round counts. -/
theorem timerPhase_pres (s : GameState) (b : Bool) :
    (timerPhase s b).hits1 = s.hits1 ∧ (timerPhase s b).hits2 = s.hits2 ∧
    (timerPhase s b).p1.is_attacking = s.p1.is_attacking ∧
    (timerPhase s b).p1.attack_timer = s.p1.attack_timer ∧
    (timerPhase s b).p2.is_attacking = s.p2.is_attacking ∧
    (timerPhase s b).p2.attack_timer = s.p2.attack_timer ∧
    (timerPhase s b).p1.health = s.p1.health ∧ (timerPhase s b).p2.health = s.p2.health ∧
    s.p1.rounds ≤ (timerPhase s b).p1.rounds ∧ s.p2.rounds ≤ (timerPhase s b).p2.rounds := by
  simp only [timerPhase]
  split_ifs <;> simp

/-- The knockout phase never touches the fighters' attack state, health or
the hit counters, and can only increase round counts. -/
theorem deathPhase_pres (s : GameState) :
    (deathPhase s).hits1 = s.hits1 ∧ (deathPhase s).hits2 = s.hits2 ∧
    (deathPhase s).p1.is_attacking = s.p1.is_attacking ∧
    (deathPhase s).p1.attack_timer = s.p1.attack_timer ∧
    (deathPhase s).p2.is_attacking = s.p2.is_attacking ∧
    (deathPhase s).p2.attack_timer = s.p2.attack_timer ∧
    (deathPhase s).p1.health = s.p1.health ∧ (deathPhase s).p2.health = s.p2.health ∧
    s.p1.rounds ≤ (deathPhase s).p1.rounds ∧ s.p2.rounds ≤ (deathPhase s).p2.rounds := by
  simp only [deathPhase]
  split_ifs <;> simp

/-- If player 1 is not attacking, the first resolver pass does nothing. -/
theorem resolve1_not_attacking (s : GameState) (h : s.p1.is_attacking = false) :
    resolve1 s = s := by
  simp only [resolve1, h]
  rfl

/-- If player 2 is not attacking, the second resolver pass does nothing. -/
theorem resolve2_not_attacking (s : GameState) (h : s.p2.is_attacking = false) :
    resolve2 s = s := by
  simp only [resolve2, h]
  rfl

/-- The first resolver pass either does nothing, or lands exactly one hit:
it then cancels p1's attack, counts the hit, and only lowers p2's health. -/
theorem resolve1_cases (s : GameState) :
    resolve1 s = s ∨
    ((resolve1 s).p1.is_attacking = false ∧ (resolve1 s).p1.attack_timer = 0 ∧
     (resolve1 s).hits1 = s.hits1 + 1 ∧ (resolve1 s).hits2 = s.hits2 ∧
     (resolve1 s).p1.health = s.p1.health ∧ (resolve1 s).p2.health ≤ s.p2.health ∧
     (resolve1 s).p2.is_attacking = s.p2.is_attacking ∧
     (resolve1 s).p2.attack_timer = s.p2.attack_timer ∧
     (resolve1 s).p1.rounds = s.p1.rounds ∧ (resolve1 s).p2.rounds = s.p2.rounds ∧
     (resolve1 s).round_active = s.round_active) := by
  simp only [resolve1]
  split_ifs with h1 h2 h3
  · refine Or.inr ⟨rfl, rfl, rfl, rfl, rfl, ?_, ?_, ?_, rfl, ?_, rfl⟩
    · exact receive_hit_health_le _ _ _ (by positivity)
    · exact (receive_hit_untouched _ _ _).1
    · exact (receive_hit_untouched _ _ _).2.1
    · exact (receive_hit_untouched _ _ _).2.2
  · left
    rw [receive_hit_false _ _ _ (by simpa using h3)]
  · exact Or.inl rfl
  · exact Or.inl rfl

/-- The second resolver pass either does nothing, or lands exactly one hit:
it then cancels p2's attack, counts the hit, and only lowers p1's health. -/
theorem resolve2_cases (s : GameState) :
    resolve2 s = s ∨
    ((resolve2 s).p2.is_attacking = false ∧ (resolve2 s).p2.attack_timer = 0 ∧
     (resolve2 s).hits2 = s.hits2 + 1 ∧ (resolve2 s).hits1 = s.hits1 ∧
     (resolve2 s).p2.health = s.p2.health ∧ (resolve2 s).p1.health ≤ s.p1.health ∧
     (resolve2 s).p1.is_attacking = s.p1.is_attacking ∧
     (resolve2 s).p1.attack_timer = s.p1.attack_timer ∧
     (resolve2 s).p1.rounds = s.p1.rounds ∧ (resolve2 s).p2.rounds = s.p2.rounds ∧
     (resolve2 s).round_active = s.round_active) := by
  simp only [resolve2]
  split_ifs with h1 h2 h3
  · refine Or.inr ⟨rfl, rfl, rfl, rfl, rfl, ?_, ?_, ?_, ?_, rfl, rfl⟩
    · exact receive_hit_health_le _ _ _ (by positivity)
    · exact (receive_hit_untouched _ _ _).1
    · exact (receive_hit_untouched _ _ _).2.1
    · exact (receive_hit_untouched _ _ _).2.2
  · left
    rw [receive_hit_false _ _ _ (by simpa using h3)]
  · exact Or.inl rfl
  · exact Or.inl rfl

/-- Fields the first resolver pass can never change, and its monotone
effect on p2's health. -/
theorem resolve1_pres (s : GameState) :
    (resolve1 s).p2.is_attacking = s.p2.is_attacking ∧
    (resolve1 s).p2.attack_timer = s.p2.attack_timer ∧
    (resolve1 s).hits2 = s.hits2 ∧
    (resolve1 s).p1.rounds = s.p1.rounds ∧
    (resolve1 s).p2.rounds = s.p2.rounds ∧
    (resolve1 s).p1.health = s.p1.health ∧
    (resolve1 s).p2.health ≤ s.p2.health ∧
    (resolve1 s).round_active = s.round_active := by
  simp only [resolve1]
  split_ifs
  · exact ⟨(receive_hit_untouched _ _ _).1, (receive_hit_untouched _ _ _).2.1, rfl, rfl,
      (receive_hit_untouched _ _ _).2.2, rfl,
      receive_hit_health_le _ _ _ (by positivity), rfl⟩
  · exact ⟨(receive_hit_untouched _ _ _).1, (receive_hit_untouched _ _ _).2.1, rfl, rfl,
      (receive_hit_untouched _ _ _).2.2, rfl,
      receive_hit_health_le _ _ _ (by positivity), rfl⟩
  · exact ⟨rfl, rfl, rfl, rfl, rfl, rfl, le_refl _, rfl⟩
  · exact ⟨rfl, rfl, rfl, rfl, rfl, rfl, le_refl _, rfl⟩

/-- Fields the second resolver pass can never change, and its monotone
effect on p1's health. -/
theorem resolve2_pres (s : GameState) :
    (resolve2 s).p1.is_attacking = s.p1.is_attacking ∧
    (resolve2 s).p1.attack_timer = s.p1.attack_timer ∧
    (resolve2 s).hits1 = s.hits1 ∧
    (resolve2 s).p1.rounds = s.p1.rounds ∧
    (resolve2 s).p2.rounds = s.p2.rounds ∧
    (resolve2 s).p2.health = s.p2.health ∧
    (resolve2 s).p1.health ≤ s.p1.health ∧
    (resolve2 s).round_active = s.round_active := by
  simp only [resolve2]
  split_ifs
  · exact ⟨(receive_hit_untouched _ _ _).1, (receive_hit_untouched _ _ _).2.1, rfl,
      (receive_hit_untouched _ _ _).2.2, rfl, rfl,
      receive_hit_health_le _ _ _ (by positivity), rfl⟩
  · exact ⟨(receive_hit_untouched _ _ _).1, (receive_hit_untouched _ _ _).2.1, rfl,
      (receive_hit_untouched _ _ _).2.2, rfl, rfl,
      receive_hit_health_le _ _ _ (by positivity), rfl⟩
  · exact ⟨rfl, rfl, rfl, rfl, rfl, rfl, le_refl _, rfl⟩
  · exact ⟨rfl, rfl, rfl, rfl, rfl, rfl, le_refl _, rfl⟩

/-- Inside the round-active block, an accepted hit by p1 leaves p1 with the
attack cancelled. -/
theorem activePhase_hits1_succ (s : GameState) (i : Input)
    (h : (activePhase s i).hits1 = s.hits1 + 1) :
    (activePhase s i).p1.is_attacking = false ∧ (activePhase s i).p1.attack_timer = 0 := by
  simp only [activePhase] at h ⊢
  set t := timerPhase s i.secondElapsed with ht
  set q1 := t.p1.update i.k1 t.p2 with hq1
  set q2 := t.p2.update i.k2 q1 with hq2
  set u : GameState := { t with p1 := q1, p2 := q2 } with hu
  obtain ⟨d1, _, d3, d4, _⟩ := deathPhase_pres (resolve2 (resolve1 u))
  obtain ⟨r1, r2, r3, _⟩ := resolve2_pres (resolve1 u)
  rcases resolve1_cases u with hid | hacc
  · exfalso
    rw [d1, r3, hid] at h
    have hu0 : u.hits1 = s.hits1 := (timerPhase_pres s i.secondElapsed).1
    omega
  · constructor
    · rw [d3, r1, hacc.1]
    · rw [d4, r2, hacc.2.1]

/-- Inside the round-active block, an accepted hit by p2 leaves p2 with the
attack cancelled. -/
theorem activePhase_hits2_succ (s : GameState) (i : Input)
    (h : (activePhase s i).hits2 = s.hits2 + 1) :
    (activePhase s i).p2.is_attacking = false ∧ (activePhase s i).p2.attack_timer = 0 := by
  simp only [activePhase] at h ⊢
  set t := timerPhase s i.secondElapsed with ht
  set q1 := t.p1.update i.k1 t.p2 with hq1
  set q2 := t.p2.update i.k2 q1 with hq2
  set u : GameState := { t with p1 := q1, p2 := q2 } with hu
  obtain ⟨d1, d2, d3, d4, d5, d6, _⟩ := deathPhase_pres (resolve2 (resolve1 u))
  obtain ⟨r1, r2, r3, _⟩ := resolve1_pres u
  rcases resolve2_cases (resolve1 u) with hid | hacc
  · exfalso
    rw [d2, hid, r3] at h
    have hu0 : u.hits2 = s.hits2 := (timerPhase_pres s i.secondElapsed).2.1
    omega
  · constructor
    · rw [d5, hacc.1]
    · rw [d6, hacc.2.1]

/-- Inside the round-active block, a non-attacking p1 whose attack key is
up stays non-attacking, and no p1 hit is counted. -/
theorem activePhase_no_attack1 (s : GameState) (i : Input)
    (h1 : s.p1.is_attacking = false) (h2 : i.k1.attack = false) :
    (activePhase s i).p1.is_attacking = false ∧ (activePhase s i).hits1 = s.hits1 := by
  simp only [activePhase]
  set t := timerPhase s i.secondElapsed with ht
  obtain ⟨t1, t2, t3, _⟩ := timerPhase_pres s i.secondElapsed
  set q1 := t.p1.update i.k1 t.p2 with hq1
  set q2 := t.p2.update i.k2 q1 with hq2
  set u : GameState := { t with p1 := q1, p2 := q2 } with hu
  have hu1 : u.p1.is_attacking = false := by
    show q1.is_attacking = false
    rw [hq1]
    exact update_not_attacking _ _ _ (by rw [t3]; exact h1) h2
  rw [resolve1_not_attacking u hu1]
  obtain ⟨r1, _, r3, _⟩ := resolve2_pres u
  obtain ⟨d1, _, d3, _⟩ := deathPhase_pres (resolve2 u)
  constructor
  · rw [d3, r1]
    exact hu1
  · rw [d1, r3]
    exact t1

/-- Inside the round-active block, a non-attacking p2 whose attack key is
up stays non-attacking, and no p2 hit is counted. -/
theorem activePhase_no_attack2 (s : GameState) (i : Input)
    (h1 : s.p2.is_attacking = false) (h2 : i.k2.attack = false) :
    (activePhase s i).p2.is_attacking = false ∧ (activePhase s i).hits2 = s.hits2 := by
  simp only [activePhase]
  set t := timerPhase s i.secondElapsed with ht
  obtain ⟨t1, t2, t3, t4, t5, _⟩ := timerPhase_pres s i.secondElapsed
  set q1 := t.p1.update i.k1 t.p2 with hq1
  set q2 := t.p2.update i.k2 q1 with hq2
  set u : GameState := { t with p1 := q1, p2 := q2 } with hu
  have hu2 : u.p2.is_attacking = false := by
    show q2.is_attacking = false
    rw [hq2]
    exact update_not_attacking _ _ _ (by rw [t5]; exact h1) h2
  obtain ⟨r1, r2, r3, _⟩ := resolve1_pres u
  have h2att : (resolve1 u).p2.is_attacking = false := by rw [r1]; exact hu2
  rw [resolve2_not_attacking _ h2att]
  obtain ⟨d1, d2, d3, d4, d5, _⟩ := deathPhase_pres (resolve1 u)
  constructor
  · rw [d5, h2att]
  · rw [d2, r3]
    exact t2

/-- The round-active block can only lower both fighters' health. -/
theorem activePhase_health (s : GameState) (i : Input) :
    (activePhase s i).p1.health ≤ s.p1.health ∧
    (activePhase s i).p2.health ≤ s.p2.health := by
  simp only [activePhase]
  set t := timerPhase s i.secondElapsed with ht
  obtain ⟨_, _, _, _, _, _, t7, t8, _⟩ := timerPhase_pres s i.secondElapsed
  set q1 := t.p1.update i.k1 t.p2 with hq1
  set q2 := t.p2.update i.k2 q1 with hq2
  set u : GameState := { t with p1 := q1, p2 := q2 } with hu
  have hu1 : u.p1.health = s.p1.health := by
    show q1.health = s.p1.health
    rw [hq1, update_health, t7]
  have hu2 : u.p2.health = s.p2.health := by
    show q2.health = s.p2.health
    rw [hq2, update_health, t8]
  obtain ⟨_, _, _, _, _, ra6, ra7, _⟩ := resolve1_pres u
  obtain ⟨_, _, _, _, _, rb6, rb7, _⟩ := resolve2_pres (resolve1 u)
  obtain ⟨_, _, _, _, _, _, d7, d8, _⟩ := deathPhase_pres (resolve2 (resolve1 u))
  constructor
  · rw [d7]
    calc (resolve2 (resolve1 u)).p1.health ≤ (resolve1 u).p1.health := rb7
      _ = u.p1.health := ra6
      _ = s.p1.health := hu1
  · rw [d8]
    calc (resolve2 (resolve1 u)).p2.health = (resolve1 u).p2.health := rb6
      _ ≤ u.p2.health := ra7
      _ = s.p2.health := hu2

/-- The round-active block never lowers round counts. -/
theorem activePhase_rounds (s : GameState) (i : Input) :
    s.p1.rounds ≤ (activePhase s i).p1.rounds ∧
    s.p2.rounds ≤ (activePhase s i).p2.rounds := by
  simp only [activePhase]
  set t := timerPhase s i.secondElapsed with ht
  obtain ⟨_, _, _, _, _, _, _, _, t9, t10⟩ := timerPhase_pres s i.secondElapsed
  set q1 := t.p1.update i.k1 t.p2 with hq1
  set q2 := t.p2.update i.k2 q1 with hq2
  set u : GameState := { t with p1 := q1, p2 := q2 } with hu
  have hu1 : u.p1.rounds = t.p1.rounds := by
    show q1.rounds = t.p1.rounds
    rw [hq1, update_rounds]
  have hu2 : u.p2.rounds = t.p2.rounds := by
    show q2.rounds = t.p2.rounds
    rw [hq2, update_rounds]
  obtain ⟨_, _, _, ra4, ra5, _⟩ := resolve1_pres u
  obtain ⟨_, _, _, rb4, rb5, _⟩ := resolve2_pres (resolve1 u)
  obtain ⟨_, _, _, _, _, _, _, _, d9, d10⟩ := deathPhase_pres (resolve2 (resolve1 u))
  constructor
  · calc s.p1.rounds ≤ t.p1.rounds := t9
      _ = u.p1.rounds := hu1.symm
      _ = (resolve1 u).p1.rounds := ra4.symm
      _ = (resolve2 (resolve1 u)).p1.rounds := rb4.symm
      _ ≤ (deathPhase (resolve2 (resolve1 u))).p1.rounds := d9
  · calc s.p2.rounds ≤ t.p2.rounds := t10
      _ = u.p2.rounds := hu2.symm
      _ = (resolve1 u).p2.rounds := ra5.symm
      _ = (resolve2 (resolve1 u)).p2.rounds := rb5.symm
      _ ≤ (deathPhase (resolve2 (resolve1 u))).p2.rounds := d10

/-- A tick that counts an accepted hit by p1 ends with p1's attack
cancelled. -/
theorem tick_hits1_succ (s : GameState) (i : Input)
    (h : (tick s i).hits1 = s.hits1 + 1) :
    (tick s i).p1.is_attacking = false ∧ (tick s i).p1.attack_timer = 0 := by
  simp only [tick] at h ⊢
  split_ifs at h ⊢ with hact
  · exact activePhase_hits1_succ (spacePhase s i.space) i
      (by rw [(spacePhase_pres s i.space).1]; exact h)
  · exfalso
    rw [(spacePhase_pres s i.space).1] at h
    omega

/-- A tick that counts an accepted hit by p2 ends with p2's attack
cancelled. -/
theorem tick_hits2_succ (s : GameState) (i : Input)
    (h : (tick s i).hits2 = s.hits2 + 1) :
    (tick s i).p2.is_attacking = false ∧ (tick s i).p2.attack_timer = 0 := by
  simp only [tick] at h ⊢
  split_ifs at h ⊢ with hact
  · exact activePhase_hits2_succ (spacePhase s i.space) i
      (by rw [(spacePhase_pres s i.space).2.1]; exact h)
  · exfalso
    rw [(spacePhase_pres s i.space).2.1] at h
    omega

/-- A tick in which p1 starts not attacking and never presses attack
counts no p1 hit and ends with p1 still not attacking. -/
theorem tick_no_attack1 (s : GameState) (i : Input)
    (h1 : s.p1.is_attacking = false) (h2 : i.k1.attack = false) :
    (tick s i).p1.is_attacking = false ∧ (tick s i).hits1 = s.hits1 := by
  have hsp := spacePhase_pres s i.space
  have hspa : (spacePhase s i.space).p1.is_attacking = false := hsp.2.2.2.2.2.2.1 h1
  simp only [tick]
  split_ifs with hact
  · have := activePhase_no_attack1 (spacePhase s i.space) i hspa h2
    exact ⟨this.1, this.2.trans hsp.1⟩
  · exact ⟨hspa, hsp.1⟩

/-- A tick in which p2 starts not attacking and never presses attack
counts no p2 hit and ends with p2 still not attacking. -/
theorem tick_no_attack2 (s : GameState) (i : Input)
    (h1 : s.p2.is_attacking = false) (h2 : i.k2.attack = false) :
    (tick s i).p2.is_attacking = false ∧ (tick s i).hits2 = s.hits2 := by
  have hsp := spacePhase_pres s i.space
  have hspa : (spacePhase s i.space).p2.is_attacking = false := hsp.2.2.2.2.2.2.2 h1
  simp only [tick]
  split_ifs with hact
  · have := activePhase_no_attack2 (spacePhase s i.space) i hspa h2
    exact ⟨this.1, this.2.trans hsp.2.1⟩
  · exact ⟨hspa, hsp.2.1⟩

/-- Health never rises in a tick that does not reset the round. -/
theorem tick_health_le (s : GameState) (i : Input)
    (hside : s.round_active = true ∨ i.space = false) :
    (tick s i).p1.health ≤ s.p1.health ∧ (tick s i).p2.health ≤ s.p2.health := by
  simp only [tick]
  rw [spacePhase_id s i.space hside]
  split_ifs
  · exact activePhase_health s i
  · exact ⟨le_refl _, le_refl _⟩

/-- A tick keeps health at or below `MAX_HEALTH`. -/
theorem tick_health_inv (s : GameState) (i : Input)
    (h : s.p1.health ≤ MAX_HEALTH ∧ s.p2.health ≤ MAX_HEALTH) :
    (tick s i).p1.health ≤ MAX_HEALTH ∧ (tick s i).p2.health ≤ MAX_HEALTH := by
  obtain ⟨_, _, _, _, hh1, hh2, _⟩ := spacePhase_pres s i.space
  have hb1 : (spacePhase s i.space).p1.health ≤ MAX_HEALTH := by
    rcases hh1 with he | he
    · exact (le_of_eq he).trans h.1
    · exact le_of_eq he
  have hb2 : (spacePhase s i.space).p2.health ≤ MAX_HEALTH := by
    rcases hh2 with he | he
    · exact (le_of_eq he).trans h.2
    · exact le_of_eq he
  simp only [tick]
  split_ifs
  · have ha := activePhase_health (spacePhase s i.space) i
    exact ⟨ha.1.trans hb1, ha.2.trans hb2⟩
  · exact ⟨hb1, hb2⟩

/-- Round counts never decrease across a tick. -/
theorem tick_rounds_mono (s : GameState) (i : Input) :
    s.p1.rounds ≤ (tick s i).p1.rounds ∧ s.p2.rounds ≤ (tick s i).p2.rounds := by
  obtain ⟨_, _, sp3, sp4, _⟩ := spacePhase_pres s i.space
  simp only [tick]
  split_ifs
  · have := activePhase_rounds (spacePhase s i.space) i
    exact ⟨sp3 ▸ this.1, sp4 ▸ this.2⟩
  · exact ⟨le_of_eq sp3.symm, le_of_eq sp4.symm⟩

/-- Any property preserved by one tick is preserved by any run. -/
theorem run_preserves (P : GameState → Prop) (hP : ∀ s i, P s → P (tick s i)) :
    ∀ (l : List Input) (s : GameState), P s → P (run s l) := by
  intro l
  induction l with
  | nil => exact fun s h => h
  | cons a as ih => exact fun s h => ih (tick s a) (hP s a h)

/-- Over a whole run in which p1 starts not attacking and never presses
attack, p1 stays not attacking and lands no hit. -/
theorem run_no_attack1 : ∀ (l : List Input), (∀ j ∈ l, j.k1.attack = false) →
    ∀ s : GameState, s.p1.is_attacking = false →
    (run s l).p1.is_attacking = false ∧ (run s l).hits1 = s.hits1 := by
  intro l
  induction l with
  | nil => exact fun _ s h => ⟨h, rfl⟩
  | cons a as ih =>
    intro hall s h
    have ha : a.k1.attack = false := hall a (List.mem_cons_self a as)
    obtain ⟨h1, h2⟩ := tick_no_attack1 s a h ha
    obtain ⟨h3, h4⟩ := ih (fun j hj => hall j (List.mem_cons_of_mem a hj)) (tick s a) h1
    exact ⟨h3, h4.trans h2⟩

/-- Over a whole run in which p2 starts not attacking and never presses
attack, p2 stays not attacking and lands no hit. -/
theorem run_no_attack2 : ∀ (l : List Input), (∀ j ∈ l, j.k2.attack = false) →
    ∀ s : GameState, s.p2.is_attacking = false →
    (run s l).p2.is_attacking = false ∧ (run s l).hits2 = s.hits2 := by
  intro l
  induction l with
  | nil => exact fun _ s h => ⟨h, rfl⟩
  | cons a as ih =>
    intro hall s h
    have ha : a.k2.attack = false := hall a (List.mem_cons_self a as)
    obtain ⟨h1, h2⟩ := tick_no_attack2 s a h ha
    obtain ⟨h3, h4⟩ := ih (fun j hj => hall j (List.mem_cons_of_mem a hj)) (tick s a) h1
    exact ⟨h3, h4.trans h2⟩

/-! ### Claims -/

/-- C1: at most one accepted hit per attack activation.  If a tick counts
an accepted hit by an attacker (that attacker's hit counter increments),
the resolver has already cancelled the attack (`is_attacking` false,
`attack_timer` zero) in that very tick, and over any further ticks in
which that attacker never presses the attack key (so no new
`start_attack`), no further hit by that attacker is counted — even if the
rectangles keep overlapping. -/
theorem C1_one_hit_per_activation (s : GameState) (i : Input) (l : List Input) :
    ((tick s i).hits1 = s.hits1 + 1 →
      (tick s i).p1.is_attacking = false ∧ (tick s i).p1.attack_timer = 0 ∧
      ((∀ j ∈ l, j.k1.attack = false) → (run (tick s i) l).hits1 = s.hits1 + 1)) ∧
    ((tick s i).hits2 = s.hits2 + 1 →
      (tick s i).p2.is_attacking = false ∧ (tick s i).p2.attack_timer = 0 ∧
      ((∀ j ∈ l, j.k2.attack = false) → (run (tick s i) l).hits2 = s.hits2 + 1)) := by
  constructor
  · intro h
    obtain ⟨ha, ht⟩ := tick_hits1_succ s i h
    refine ⟨ha, ht, fun hl => ?_⟩
    obtain ⟨_, hrun⟩ := run_no_attack1 l hl (tick s i) ha
    rw [hrun, h]
  · intro h
    obtain ⟨ha, ht⟩ := tick_hits2_succ s i h
    refine ⟨ha, ht, fun hl => ?_⟩
    obtain ⟨_, hrun⟩ := run_no_attack2 l hl (tick s i) ha
    rw [hrun, h]

/-- C2: `receive_hit` while invulnerable fails: it returns `False` and
changes no field of the fighter. -/
theorem C2_receive_hit_invulnerable (p : Player) (damage direction : ℤ)
    (h : p.invuln > 0) : p.receive_hit damage direction = (false, p) := by
  simp only [Player.receive_hit]
  rw [if_pos h]

/-- C2 witness at a concrete invulnerable fighter. -/
theorem C2_witness :
    stunnedP.invuln > 0 ∧ stunnedP.receive_hit 12 1 = (false, stunnedP) :=
  ⟨by decide, C2_receive_hit_invulnerable stunnedP 12 1 (by decide)⟩

/-- C3: `receive_hit` while vulnerable succeeds: health drops by the
damage with no clamping, the hit-stun and invulnerability windows and the
combo timer are set to their fixed constants, the velocity becomes
`direction × KNOCKBACK` horizontally and the fixed upward impulse
vertically, and the combo count increments. -/
theorem C3_receive_hit_vulnerable (p : Player) (damage direction : ℤ)
    (h : p.invuln = 0) :
    p.receive_hit damage direction =
      (true, { p with
        health := p.health - damage, hit_stun := HIT_STUN,
        invuln := INVULN_AFTER_HIT, vx := (direction : ℚ) * KNOCKBACK,
        vy := -6, combo := p.combo + 1, combo_timer := 60 }) := by
  simp only [Player.receive_hit]
  rw [if_neg (by omega)]

/-- C4: round-end attribution.  On timer expiry the fighter with strictly
higher health wins (equal health is a draw) and the winner's round count
is incremented; on knockout the round ends at once, double knockout is
checked first and is a draw, otherwise the survivor wins and their round
count is incremented. -/
theorem C4_round_end_attribution (s : GameState) :
    (s.round_time_left - 1 ≤ 0 →
      (timerPhase s true).round_active = false ∧
      (s.p1.health > s.p2.health →
        (timerPhase s true).round_winner = some Winner.P1 ∧
        (timerPhase s true).p1.rounds = s.p1.rounds + 1 ∧
        (timerPhase s true).p2.rounds = s.p2.rounds) ∧
      (s.p2.health > s.p1.health →
        (timerPhase s true).round_winner = some Winner.P2 ∧
        (timerPhase s true).p2.rounds = s.p2.rounds + 1 ∧
        (timerPhase s true).p1.rounds = s.p1.rounds) ∧
      (s.p1.health = s.p2.health →
        (timerPhase s true).round_winner = some Winner.Draw ∧
        (timerPhase s true).p1.rounds = s.p1.rounds ∧
        (timerPhase s true).p2.rounds = s.p2.rounds)) ∧
    (s.p1.health ≤ 0 ∧ s.p2.health ≤ 0 →
      (deathPhase s).round_active = false ∧
      (deathPhase s).round_winner = some Winner.Draw ∧
      (deathPhase s).p1.rounds = s.p1.rounds ∧
      (deathPhase s).p2.rounds = s.p2.rounds) ∧
    (s.p1.health ≤ 0 ∧ 0 < s.p2.health →
      (deathPhase s).round_active = false ∧
      (deathPhase s).round_winner = some Winner.P2 ∧
      (deathPhase s).p2.rounds = s.p2.rounds + 1 ∧
      (deathPhase s).p1.rounds = s.p1.rounds) ∧
    (0 < s.p1.health ∧ s.p2.health ≤ 0 →
      (deathPhase s).round_active = false ∧
      (deathPhase s).round_winner = some Winner.P1 ∧
      (deathPhase s).p1.rounds = s.p1.rounds + 1 ∧
      (deathPhase s).p2.rounds = s.p2.rounds) := by
  refine ⟨fun htime => ⟨?_, fun hgt => ?_, fun hgt => ?_, fun heq => ?_⟩,
    fun hk => ?_, fun hk => ?_, fun hk => ?_⟩ <;>
    first
      | (simp only [timerPhase]
         split_ifs <;> first | rfl | exact ⟨rfl, rfl, rfl⟩ | omega)
      | (simp only [deathPhase]
         split_ifs <;> first | exact ⟨rfl, rfl, rfl, rfl⟩ | omega)

/-- C4 witness: the timer branch at a concrete last-second state, and the
double-knockout branch at a concrete state with both fighters at or below
zero health. -/
theorem C4_witness :
    ((timerPhase lastSecondState true).round_active = false ∧
      (timerPhase lastSecondState true).round_winner = some Winner.P2 ∧
      (timerPhase lastSecondState true).p2.rounds = lastSecondState.p2.rounds + 1 ∧
      (timerPhase lastSecondState true).p1.rounds = lastSecondState.p1.rounds) ∧
    (deathPhase { lastSecondState with
        p1 := { duelP1 with health := 0 },
        p2 := { duelP2 with health := -3 } }).round_winner = some Winner.Draw := by
  constructor
  · obtain ⟨ha, _, hp2, _⟩ := (C4_round_end_attribution lastSecondState).1 (by decide)
    obtain ⟨w, r2, r1⟩ := hp2 (by decide)
    exact ⟨ha, w, r2, r1⟩
  · exact ((C4_round_end_attribution _).2.1 ⟨by decide, by decide⟩).2.1

/-- C5 (amended): on every reachable state both fighters' health is at
most `MAX_HEALTH`, and health never increases across a tick that does not
perform a round reset (the reset being the only way health is restored).
The claimed lower bound 0 is false: see the counterexample. -/
theorem C5_health_upper_bound :
    (∀ s : GameState, Reachable s →
      s.p1.health ≤ MAX_HEALTH ∧ s.p2.health ≤ MAX_HEALTH) ∧
    (∀ (s : GameState) (i : Input), s.round_active = true ∨ i.space = false →
      (tick s i).p1.health ≤ s.p1.health ∧ (tick s i).p2.health ≤ s.p2.health) := by
  constructor
  · rintro s ⟨l, rfl⟩
    exact run_preserves
      (fun s => s.p1.health ≤ MAX_HEALTH ∧ s.p2.health ≤ MAX_HEALTH)
      tick_health_inv l initState (by decide)
  · exact tick_health_le

/-- C5 witness: the bound at the initial state and monotonicity at a
concrete active tick. -/
theorem C5_witness :
    (initState.p1.health ≤ MAX_HEALTH ∧ initState.p2.health ≤ MAX_HEALTH) ∧
    (tick swingState idleInput).p2.health ≤ swingState.p2.health :=
  ⟨C5_health_upper_bound.1 initState ⟨[], rfl⟩,
   (C5_health_upper_bound.2 swingState idleInput (Or.inl rfl)).2⟩

/-- C6 (amended): `start_attack` is a no-op when already attacking or
hit-stunned, and otherwise arms the attack for `ATTACK_DURATION` frames
with a forward hop of `2 · facing`; but contrary to the claim its Python
return value is `None` on every path (modelled as `none`), not a success
boolean — acceptance is not reported to the caller. -/
theorem C6_start_attack_spec (p : Player) :
    (p.is_attacking = true ∨ 0 < p.hit_stun → (p.start_attack).1 = p) ∧
    (p.is_attacking = false ∧ p.hit_stun = 0 →
      (p.start_attack).1 =
        { p with
          is_attacking := true, attack_timer := ATTACK_DURATION,
          vx := p.vx + 2 * (p.facing : ℚ) }) ∧
    (p.start_attack).2 = none := by
  refine ⟨fun h => ?_, fun h => ?_, rfl⟩
  · simp only [Player.start_attack]
    rw [if_neg]
    rintro ⟨h1, h2⟩
    rcases h with h | h
    · rw [h] at h1
      exact Bool.noConfusion h1
    · omega
  · simp only [Player.start_attack]
    rw [if_pos h]

/-- C8 (amended): `round_reset` repositions the fighters so their centers
sit at 25% / 75% of the stage width (x = 216 / 696), restores health,
zeroes velocity, all timers, the combo state and the attacking flag, and
leaves `rounds`, `facing` and `on_ground` untouched.  Contrary to the
claim, the reset x differs from the creation x (240 / 720), and `facing`
is not reset. -/
theorem C8_round_reset_spec (p1 p2 : Player) :
    (round_reset p1 p2).1.x = WIDTH * (25 / 100) - PLAYER_WIDTH / 2 ∧
    (round_reset p1 p2).2.x = WIDTH * (75 / 100) - PLAYER_WIDTH / 2 ∧
    (round_reset p1 p2).1.y = GROUND_Y - PLAYER_HEIGHT ∧
    (round_reset p1 p2).2.y = GROUND_Y - PLAYER_HEIGHT ∧
    (round_reset p1 p2).1.vx = 0 ∧ (round_reset p1 p2).1.vy = 0 ∧
    (round_reset p1 p2).2.vx = 0 ∧ (round_reset p1 p2).2.vy = 0 ∧
    (round_reset p1 p2).1.health = MAX_HEALTH ∧
    (round_reset p1 p2).2.health = MAX_HEALTH ∧
    (round_reset p1 p2).1.is_attacking = false ∧
    (round_reset p1 p2).2.is_attacking = false ∧
    (round_reset p1 p2).1.attack_timer = 0 ∧ (round_reset p1 p2).2.attack_timer = 0 ∧
    (round_reset p1 p2).1.hit_stun = 0 ∧ (round_reset p1 p2).2.hit_stun = 0 ∧
    (round_reset p1 p2).1.invuln = 0 ∧ (round_reset p1 p2).2.invuln = 0 ∧
    (round_reset p1 p2).1.combo = 0 ∧ (round_reset p1 p2).2.combo = 0 ∧
    (round_reset p1 p2).1.combo_timer = 0 ∧ (round_reset p1 p2).2.combo_timer = 0 ∧
    (round_reset p1 p2).1.rounds = p1.rounds ∧ (round_reset p1 p2).2.rounds = p2.rounds ∧
    (round_reset p1 p2).1.facing = p1.facing ∧ (round_reset p1 p2).2.facing = p2.facing ∧
    (round_reset p1 p2).1.on_ground = p1.on_ground ∧
    (round_reset p1 p2).2.on_ground = p2.on_ground :=
  ⟨rfl, rfl, rfl, rfl, rfl, rfl, rfl, rfl, rfl, rfl, rfl, rfl, rfl, rfl,
   rfl, rfl, rfl, rfl, rfl, rfl, rfl, rfl, rfl, rfl, rfl, rfl, rfl, rfl⟩

/-- C9 (amended): on an update in which the fighter is not hit-stunned
after the timer decrement (entry `hit_stun ≤ 1`), facing auto-orients to
the opponent: right exactly when the opponent's center is strictly to the
right of the fighter's post-move center; but on hit-stunned frames
(entry `hit_stun ≥ 2`) the update returns early and facing is unchanged,
contrary to the claim's "including frames on which the fighter is
hit-stunned". -/
theorem C9_facing_after_update (p : Player) (k : PKeys) (o : Player) :
    (p.hit_stun ≤ 1 →
      (p.update k o).facing =
        if o.center_x > (p.update k o).center_x then 1 else -1) ∧
    (2 ≤ p.hit_stun → (p.update k o).facing = p.facing) := by
  constructor
  · intro h
    rw [update_free_eq p k o h]
    exact free_update_facing _ _ _
  · intro h
    rw [update_stun_eq p k o h, stun_update_facing, step_timers_facing]

/-- C9 witness: the auto-orientation at a concrete free fighter and the
unchanged facing at a concrete stunned fighter. -/
theorem C9_witness :
    (leftOpponent.update noKeys stunnedP).facing =
      (if stunnedP.center_x > (leftOpponent.update noKeys stunnedP).center_x
       then 1 else -1) ∧
    (stunnedP.update noKeys leftOpponent).facing = stunnedP.facing :=
  ⟨(C9_facing_after_update leftOpponent noKeys stunnedP).1 (by decide),
   (C9_facing_after_update stunnedP noKeys leftOpponent).2 (by decide)⟩

/-- C10 (amended): once a round has ended and either fighter has reached
`ROUNDS_TO_WIN`, the displayed match winner is Player 1 exactly when p1
has strictly more rounds, and Player 2 otherwise — so a fighter at the
threshold is not flagged when the opponent has at least as many rounds;
round counts never decrease across ticks, so the flag condition persists,
but the flagged identity can change at a later round end. -/
theorem C10_match_flag (s : GameState) (i : Input) :
    (s.round_active = false →
      s.p1.rounds ≥ ROUNDS_TO_WIN ∨ s.p2.rounds ≥ ROUNDS_TO_WIN →
      champFlag s = some (if s.p1.rounds > s.p2.rounds then Winner.P1 else Winner.P2)) ∧
    (s.p1.rounds ≤ (tick s i).p1.rounds ∧ s.p2.rounds ≤ (tick s i).p2.rounds) := by
  refine ⟨fun h1 h2 => ?_, tick_rounds_mono s i⟩
  simp only [champFlag]
  rw [if_pos ⟨h1, h2⟩]

/-- C10 witness: the flag at a concrete ended state and round-count
monotonicity at a concrete tick. -/
theorem C10_witness :
    champFlag matchPointState =
      some (if matchPointState.p1.rounds > matchPointState.p2.rounds
            then Winner.P1 else Winner.P2) ∧
    overtakeState.p1.rounds ≤ (tick overtakeState idleInput).p1.rounds :=
  ⟨(C10_match_flag matchPointState idleInput).1 rfl (by decide),
   ((C10_match_flag overtakeState idleInput).2).1⟩

/-! ### Concrete evaluations

The witnesses and counterexamples below evaluate the model on concrete
states, which needs the `Rat` arithmetic to be reducible again. -/

set_option allowUnsafeReducibility true in
attribute [semireducible] Rat.add Rat.sub Rat.mul Rat.inv

/-- C1 witness: concrete mid-swing state; the hit lands on the first tick,
the attack is cancelled, and two further idle ticks add no hit. -/
theorem C1_witness :
    (tick swingState idleInput).hits1 = swingState.hits1 + 1 ∧
    (tick swingState idleInput).p1.is_attacking = false ∧
    (tick swingState idleInput).p1.attack_timer = 0 ∧
    (run (tick swingState idleInput) [idleInput, idleInput]).hits1 =
      swingState.hits1 + 1 := by
  have h : (tick swingState idleInput).hits1 = swingState.hits1 + 1 := by decide
  obtain ⟨a, b, c⟩ :=
    (C1_one_hit_per_activation swingState idleInput [idleInput, idleInput]).1 h
  exact ⟨h, a, b, c (by decide)⟩


/-- C3 witness: a concrete hit that takes health negative (no clamping),
and the two knockback directions. -/
theorem C3_witness :
    duelP2.invuln = 0 ∧
    duelP2.receive_hit 12 1 =
      (true, { duelP2 with
        health := duelP2.health - 12, hit_stun := HIT_STUN,
        invuln := INVULN_AFTER_HIT, vx := ((1 : ℤ) : ℚ) * KNOCKBACK,
        vy := -6, combo := duelP2.combo + 1, combo_timer := 60 }) ∧
    (duelP2.receive_hit 12 1).2.health = -2 ∧
    (duelP2.receive_hit 12 1).2.vx = KNOCKBACK ∧
    (duelP2.receive_hit 12 (-1)).2.vx = -KNOCKBACK :=
  ⟨by decide, C3_receive_hit_vulnerable duelP2 12 1 (by decide),
   by decide, by decide, by decide⟩


/-- C5 counterexample: a state reachable from match start (354 concrete
frames: walk in, pin p2 at the wall, land nine swings) in which p2's
health is negative, refuting the claimed invariant `health ∈ [0, MAX]`. -/
theorem C5_counterexample : Reachable cex354 ∧ ¬(0 ≤ cex354.p2.health) :=
  ⟨⟨script, c5run_all⟩, by decide⟩


/-- C6 counterexample: even an accepted `start_attack` (fighter free to
act, attack armed) returns `None`, not a boolean. -/
theorem C6_counterexample :
    leftOpponent.is_attacking = false ∧ leftOpponent.hit_stun = 0 ∧
    ((leftOpponent.start_attack).1).is_attacking = true ∧
    (leftOpponent.start_attack).2 = none := by decide


/-- C6 witness: the no-op case at a stunned fighter and the arming case at
a free fighter. -/
theorem C6_witness :
    (stunnedP.start_attack).1 = stunnedP ∧
    (leftOpponent.start_attack).1 =
      { leftOpponent with
        is_attacking := true, attack_timer := ATTACK_DURATION,
        vx := leftOpponent.vx + 2 * (leftOpponent.facing : ℚ) } :=
  ⟨(C6_start_attack_spec stunnedP).1 (Or.inr (by decide)),
   (C6_start_attack_spec leftOpponent).2.1 ⟨by decide, by decide⟩⟩


/-- C7: on the tick in which the round timer reaches zero, the timer check
awards the round on health (here to p2) and deactivates the round, but the
same tick still runs both updates and the resolver; the knockout that
results overwrites the recorded winner (to p1) and increments a second
round counter, so the combined rounds total rises by two in one tick. -/
theorem C7_double_round_award :
    lastSecondState.p1.rounds = 0 ∧ lastSecondState.p2.rounds = 0 ∧
    lastSecondState.round_time_left = 1 ∧
    (timerPhase lastSecondState true).round_winner = some Winner.P2 ∧
    (timerPhase lastSecondState true).p2.rounds = 1 ∧
    (tick lastSecondState lastSecondInput).round_winner = some Winner.P1 ∧
    (tick lastSecondState lastSecondInput).p1.rounds = 1 ∧
    (tick lastSecondState lastSecondInput).p2.rounds = 1 ∧
    (tick lastSecondState lastSecondInput).hits1 = 1 ∧
    (tick lastSecondState lastSecondInput).round_active = false := by decide


/-- C8 counterexample: the reset position is not the creation position
(216 vs 240), and a fighter reset while facing left keeps facing left —
`facing` is not among the fields `round_reset` restores. -/
theorem C8_counterexample :
    initState.p1.x = 240 ∧ initState.p1.facing = 1 ∧
    (round_reset { initState.p1 with facing := -1 } initState.p2).1.x ≠ initState.p1.x ∧
    (round_reset { initState.p1 with facing := -1 } initState.p2).1.facing = -1 := by
  decide


/-- C9 counterexample: a hit-stunned fighter facing right with the
opponent on its left still faces right after the update — facing is not
re-oriented on stunned frames. -/
theorem C9_counterexample :
    stunnedP.hit_stun > 0 ∧
    leftOpponent.center_x < (stunnedP.update noKeys leftOpponent).center_x ∧
    (stunnedP.update noKeys leftOpponent).facing = 1 ∧
    ¬((stunnedP.update noKeys leftOpponent).facing = 1 ↔
      leftOpponent.center_x > (stunnedP.update noKeys leftOpponent).center_x) := by
  decide


/-- C10 counterexample: at 2 : 1 the flag names Player 1; after p2 takes
one more round (2 : 2, reached by a concrete knockout tick) the flag
names Player 2 even though p1 still holds `ROUNDS_TO_WIN` rounds — the
"flag remains true" part and the "any fighter at threshold is flagged"
part of the claim both fail. -/
theorem C10_counterexample :
    champFlag matchPointState = some Winner.P1 ∧
    matchPointState.p1.rounds = 2 ∧ matchPointState.p2.rounds = 1 ∧
    (tick overtakeState idleInput).round_active = false ∧
    (tick overtakeState idleInput).p1.rounds = 2 ∧
    (tick overtakeState idleInput).p2.rounds = 2 ∧
    ROUNDS_TO_WIN ≤ (tick overtakeState idleInput).p1.rounds ∧
    champFlag (tick overtakeState idleInput) = some Winner.P2 := by
  decide



end Fighting
